import Mathlib

/-!
# Verification of the GLFW-hpp callback-dispatch registry

Shallow embedding of the callback registry of `src/include/GLFW.hpp` (and its
earlier draft `src/include/GLFW3.hpp`, whose registry code is identical for the
parts treated here).

Modelling conventions:
* `GLFWwindow*` / `GLFWmonitor*` handles are opaque values used only as lookup
  keys (pointer-value equality), embedded as `Nat`.
* user handlers (`std::function` targets / callables) are values of an abstract
  type `H`; a stored `std::function` is `Option H` (`none` = empty function).
* the global mutable registry state (`detail::glfw_callbacks::*` maps plus the
  per-window native callback slots held by the GLFW C layer) is a structure
  `glfw_state H` passed and returned explicitly.
* `std::unordered_map<GLFWwindow*, V>` is a function `Nat → Option V` (`none`
  = no map entry; `operator[]` default-constructs a value-initialised `V`).
* the native install points `glfwSetWindowPosCallback`, `glfwSetKeyCallback`,
  ... hold either the unique wrapper trampoline for that kind or `nullptr`;
  each slot is embedded as a `Bool` (`true` = the trampoline is installed).
* invoking an empty `std::function` throws `std::bad_function_call`; a
  dispatch path that can do this returns `Except cpp_fault _`.
* `uint16_t` masks are embedded as `Nat`: the only operations performed on
  them are bitwise (`&`), which agree with `Nat` on values below `2 ^ 16`,
  and every `window_event_type` constant is below `2 ^ 9`.
-/

namespace GLFWhpp

abbrev WindowId := Nat
abbrev MonitorId := Nat

/-! ## `window_event_type` (GLFW.hpp lines 479-489, GLFW3.hpp lines 415-425) -/

def POSITION_CHANGED : Nat := 1 <<< 0
def SIZE_CHANGED : Nat := 1 <<< 1
def FRAMEBUFFER_SIZE_CHANGED : Nat := 1 <<< 2
def CONTENT_SCALE_CHANGED : Nat := 1 <<< 3
def FOCUS_CHANGED : Nat := 1 <<< 4
def MINIMIZE_STATE_CHANGED : Nat := 1 <<< 5
def MAXIMIZE_STATE_CHANGED : Nat := 1 <<< 6
def CONTENT_NEEDS_REFRESH : Nat := 1 <<< 7
def CLOSE_REQUESTED : Nat := 1 <<< 8

/-- The nine sub-event kinds of the multiplexed window-event family, one per
native callback slot (`glfwSetWindowPosCallback` ... `glfwSetWindowCloseCallback`). -/
inductive window_event_kind : Type where
  | position
  | size
  | framebuffer_size
  | content_scale
  | focus
  | minimize
  | maximize
  | refresh
  | close
deriving DecidableEq, Repr

/-- The `window_event_type` bit each sub-kind is gated on, exactly as the nine
trampolines (GLFW.hpp lines 1295-1328) and the nine install lines
(GLFW.hpp lines 1583-1591) pair them. -/
def window_event_bit : window_event_kind → Nat
  | .position => POSITION_CHANGED
  | .size => SIZE_CHANGED
  | .framebuffer_size => FRAMEBUFFER_SIZE_CHANGED
  | .content_scale => CONTENT_SCALE_CHANGED
  | .focus => FOCUS_CHANGED
  | .minimize => MINIMIZE_STATE_CHANGED
  | .maximize => MAXIMIZE_STATE_CHANGED
  | .refresh => CONTENT_NEEDS_REFRESH
  | .close => CLOSE_REQUESTED

/-! ## Registry state -/

/-- `detail::window_callback` (GLFW.hpp lines 1259-1262): a shared handler for
the window-event family plus the interest mask. -/
structure window_callback (H : Type) where
  callback : Option H
  mask : Nat
deriving DecidableEq, Repr

/-- The process-wide mutable state touched by the registry: the
`detail::glfw_callbacks` globals (GLFW.hpp lines 1264-1281) together with the
per-resource native callback slots owned by the GLFW C layer. -/
structure glfw_state (H : Type) where
  /-- `detail::glfw_callbacks::window_callbacks` -/
  window_callbacks : WindowId → Option (window_callback H)
  /-- `detail::glfw_callbacks::key_callbacks`; the inner `Option` is the
  emptiness of the stored `std::function`. -/
  key_callbacks : WindowId → Option (Option H)
  /-- `detail::glfw_callbacks::monitor_callback` (a single global `std::function`) -/
  monitor_callback : Option H
  /-- `detail::glfw_callbacks::joystick_callback` -/
  joystick_callback : Option H
  /-- native slot per window and sub-kind: `true` iff the corresponding
  `glfw_window_*_callback` trampoline is currently installed via
  `glfwSetWindow...Callback` (`false` = `nullptr`). -/
  window_slots : WindowId → window_event_kind → Bool
  /-- native slot set by `glfwSetKeyCallback` -/
  key_slot : WindowId → Bool
  /-- native slot set by `glfwSetMonitorCallback` -/
  monitor_slot : Bool
  /-- native slot set by `glfwSetJoystickCallback` -/
  joystick_slot : Bool

/-- The state at program start: every map empty, every `std::function`
default-initialised (empty), every native slot `nullptr`. -/
def initial_state (H : Type) : glfw_state H where
  window_callbacks := fun _ => none
  key_callbacks := fun _ => none
  monitor_callback := none
  joystick_callback := none
  window_slots := fun _ _ => false
  key_slot := fun _ => false
  monitor_slot := false
  joystick_slot := false

/-! ## Registration operations -/

/-- `window_events::set_event_callback(GLFWwindow*, WindowCallback&&, window_event_type mask)`
(GLFW.hpp lines 1577-1592, GLFW3.hpp lines 1096-1111).

Stores `window_callback{ callback, mask }` under the window key, then performs
the nine `glfwSet...Callback(window, (mask & BIT) == 1 ? &trampoline : nullptr)`
calls; the nine source lines are uniform in the sub-kind's bit, so they are
embedded as one update over `window_event_kind`.  Note the source condition is
`(mask & BIT) == 1`, not `(mask & BIT) != 0`. -/
def window_events.set_event_callback {H : Type} (window : WindowId) (callback : H)
    (mask : Nat) (s : glfw_state H) : glfw_state H :=
  { s with
    window_callbacks := fun w =>
      if w = window then some ⟨some callback, mask⟩ else s.window_callbacks w
    window_slots := fun w k =>
      if w = window then (mask &&& window_event_bit k) == 1 else s.window_slots w k }

/-- `window_events::set_event_callback(GLFWwindow*, std::nullptr_t)`
(GLFW.hpp lines 1594-1606, GLFW3.hpp lines 1113-1125).

`window_callbacks[window].callback = nullptr;` — `operator[]` default-creates
the entry (empty function, mask `0`) when absent, then only the `callback`
member is overwritten, so a pre-existing mask is retained — followed by nine
`glfwSet...Callback(window, nullptr)` calls. -/
def window_events.set_event_callback_null {H : Type} (window : WindowId)
    (s : glfw_state H) : glfw_state H :=
  { s with
    window_callbacks := fun w =>
      if w = window then
        some ⟨none, ((s.window_callbacks window).getD ⟨none, 0⟩).mask⟩
      else s.window_callbacks w
    window_slots := fun w k => if w = window then false else s.window_slots w k }

/-- `input::set_key_callback(GLFWwindow*, KeyCallback&&)` (GLFW.hpp lines
1439-1444): `key_callbacks[window] = callback;` then
`glfwSetKeyCallback(window, &glfw_key_callback);`. -/
def input.set_key_callback {H : Type} (window : WindowId) (callback : H)
    (s : glfw_state H) : glfw_state H :=
  { s with
    key_callbacks := fun w =>
      if w = window then some (some callback) else s.key_callbacks w
    key_slot := fun w => if w = window then true else s.key_slot w }

/-- `input::set_key_callback(GLFWwindow*, std::nullptr_t)` (GLFW.hpp lines
1446-1449): `key_callbacks[window] = nullptr;` then
`glfwSetKeyCallback(window, nullptr);`. -/
def input.set_key_callback_null {H : Type} (window : WindowId)
    (s : glfw_state H) : glfw_state H :=
  { s with
    key_callbacks := fun w => if w = window then some none else s.key_callbacks w
    key_slot := fun w => if w = window then false else s.key_slot w }

/-- `input::set_joystick_callback(JoystickCallback&&)` (GLFW.hpp lines 1528-1533). -/
def input.set_joystick_callback {H : Type} (callback : H)
    (s : glfw_state H) : glfw_state H :=
  { s with joystick_callback := some callback, joystick_slot := true }

/-- `input::set_joystick_callback(std::nullptr_t)` (GLFW.hpp lines 1535-1538). -/
def input.set_joystick_callback_null {H : Type} (s : glfw_state H) : glfw_state H :=
  { s with joystick_callback := none, joystick_slot := false }

/-- `monitor_events::set_event_callback(MonitorCallback&&)` (GLFW.hpp lines
1560-1565, GLFW3.hpp lines 1079-1084). -/
def monitor_events.set_event_callback {H : Type} (callback : H)
    (s : glfw_state H) : glfw_state H :=
  { s with monitor_callback := some callback, monitor_slot := true }

/-- `monitor_events::set_event_callback(std::nullptr_t)` (GLFW.hpp lines
1567-1570, GLFW3.hpp lines 1086-1089). -/
def monitor_events.set_event_callback_null {H : Type} (s : glfw_state H) : glfw_state H :=
  { s with monitor_callback := none, monitor_slot := false }

/-! ## Dispatch (the trampolines)

A trampoline's observable behaviour is the handler invocation it performs, if
any, together with the event value that handler receives: `Option (H × event)`
(`none` = no handler invoked).  The monitor trampoline can invoke an empty
`std::function`, which throws, so it returns `Except cpp_fault _` instead. -/

/-- The `key_event` value built by `glfw_key_callback` (raw native data plus
the source window reference; enum wrappers are value-preserving casts). -/
structure key_event where
  window : WindowId
  key : Int
  scancode : Int
  action : Int
  modifiers : Int
deriving DecidableEq, Repr

/-- A C++ runtime fault observable on a dispatch path. -/
inductive cpp_fault : Type where
  /-- thrown on invoking an empty `std::function` -/
  | bad_function_call
deriving DecidableEq, Repr

/-- Shared body of the nine window-family trampolines
`detail::glfw_callbacks::glfw_window_pos_callback` ...
`glfw_window_close_callback` (GLFW.hpp lines 1295-1328, GLFW3.hpp lines
1038-1071), which differ only in the gating bit:

`if (auto cb = window_callbacks.find(sourceWindow); cb != window_callbacks.end()
   && cb->second.mask & BIT && cb->second.callback)
   cb->second.callback(window_ref{ sourceWindow });` -/
def detail.glfw_callbacks.window_trampoline {H : Type} (k : window_event_kind)
    (s : glfw_state H) (sourceWindow : WindowId) : Option (H × WindowId) :=
  match s.window_callbacks sourceWindow with
  | some cb =>
    if cb.mask &&& window_event_bit k ≠ 0 then
      cb.callback.map (fun f => (f, sourceWindow))
    else none
  | none => none

/-- `detail::glfw_callbacks::glfw_window_pos_callback` (GLFW.hpp lines
1295-1297); the two native `int` position arguments are ignored by the source. -/
def detail.glfw_callbacks.glfw_window_pos_callback {H : Type} (s : glfw_state H)
    (sourceWindow : WindowId) (_x _y : Int) : Option (H × WindowId) :=
  detail.glfw_callbacks.window_trampoline .position s sourceWindow

/-- `detail::glfw_callbacks::glfw_window_size_callback` (GLFW.hpp lines
1299-1301, GLFW3.hpp lines 1042-1044); the two native `int` size arguments are
ignored by the source. -/
def detail.glfw_callbacks.glfw_window_size_callback {H : Type} (s : glfw_state H)
    (sourceWindow : WindowId) (_w _h : Int) : Option (H × WindowId) :=
  detail.glfw_callbacks.window_trampoline .size s sourceWindow

/-- `detail::glfw_callbacks::glfw_window_close_callback` (GLFW.hpp lines
1326-1328). -/
def detail.glfw_callbacks.glfw_window_close_callback {H : Type} (s : glfw_state H)
    (sourceWindow : WindowId) : Option (H × WindowId) :=
  detail.glfw_callbacks.window_trampoline .close s sourceWindow

/-- `detail::glfw_callbacks::glfw_key_callback` (GLFW.hpp lines 1342-1344):
`if (auto cb = key_callbacks.find(sourceWindow); cb != key_callbacks.end() &&
cb->second) cb->second(key_event{ ... });` -/
def detail.glfw_callbacks.glfw_key_callback {H : Type} (s : glfw_state H)
    (sourceWindow : WindowId) (key scanCode action modifiers : Int) :
    Option (H × key_event) :=
  match s.key_callbacks sourceWindow with
  | some (some f) => some (f, ⟨sourceWindow, key, scanCode, action, modifiers⟩)
  | _ => none

/-- `detail::glfw_callbacks::glfw_monitor_callback` (GLFW.hpp lines 1285-1287,
GLFW3.hpp lines 1030-1032): `glfw_callbacks::monitor_callback(monitor_event{...});`
— the stored `std::function` is invoked with no emptiness check, so an empty
function throws `std::bad_function_call`. -/
def detail.glfw_callbacks.glfw_monitor_callback {H : Type} (s : glfw_state H)
    (glfwMonitor : MonitorId) (eventType : Int) :
    Except cpp_fault (H × MonitorId × Int) :=
  match s.monitor_callback with
  | some f => .ok (f, glfwMonitor, eventType)
  | none => .error .bad_function_call

/-- `detail::glfw_callbacks::glfw_joystick_callback` (GLFW.hpp lines 1369-1371):
`if (joystick_callback) joystick_callback(joystick_event{ ... });` -/
def detail.glfw_callbacks.glfw_joystick_callback {H : Type} (s : glfw_state H)
    (id event : Int) : Option (H × Int × Int) :=
  match s.joystick_callback with
  | some f => some (f, id, event)
  | none => none

/-- Modelled from the spec: the native layer's delivery contract (spec §6) —
missing from `src/` because the native windowing library is an external
collaborator — "a guarantee that the native layer invokes that pointer with
the identity and kind-specific raw data at the moment the event is
recognized": a native window event of sub-kind `k` on `window` runs the
installed per-kind slot when it is non-null, and nothing otherwise. -/
def deliver_window_event {H : Type} (k : window_event_kind) (s : glfw_state H)
    (window : WindowId) : Option (H × WindowId) :=
  if s.window_slots window k then
    detail.glfw_callbacks.window_trampoline k s window
  else none

/-! ## `detail::version_base` (GLFW.hpp lines 107-137, GLFW3.hpp lines 80-110) -/

structure version_base where
  major : Int
  minor : Int
  revision : Int
deriving DecidableEq, Repr

/-- `detail::version_base::operator<` (GLFW.hpp lines 112-117, GLFW3.hpp lines
85-90): three independent component comparisons, each returning `true` on its
own. -/
def version_base.lt (a rhs : version_base) : Bool :=
  if a.major < rhs.major then true
  else if a.minor < rhs.minor then true
  else if a.revision < rhs.revision then true
  else false

/-! ## Helper lemmas -/

/-- Dispatch on a window right after a masked registration on that window:
the handler fires exactly when the sub-kind's bit is set in the mask. -/
theorem window_trampoline_after_set {H : Type} (s : glfw_state H) (w : WindowId)
    (h : H) (M : Nat) (k : window_event_kind) :
    detail.glfw_callbacks.window_trampoline k
        (window_events.set_event_callback w h M s) w
      = if M &&& window_event_bit k ≠ 0 then some (h, w) else none := by
  simp [detail.glfw_callbacks.window_trampoline, window_events.set_event_callback,
    Option.map]

/-! ## Claims -/

/-- C10: `version_base::operator<` returns `true` exactly when one of the three
component comparisons holds (a disjunction, not lexicographic order); in
particular `1.0.0 < 0.0.1` and `0.0.1 < 1.0.0` both hold, so `<` is not a
strict order. -/
theorem C10_version_lt_disjunction :
    (∀ a b : version_base,
        version_base.lt a b = true ↔
          (a.major < b.major ∨ a.minor < b.minor ∨ a.revision < b.revision)) ∧
      version_base.lt ⟨1, 0, 0⟩ ⟨0, 0, 1⟩ = true ∧
      version_base.lt ⟨0, 0, 1⟩ ⟨1, 0, 0⟩ = true := by
  refine ⟨fun a b => ?_, by decide, by decide⟩
  unfold version_base.lt
  split
  · simp_all
  · split
    · simp_all
    · split <;> simp_all

/-- C2 (amended): for the identity-keyed trampolines (window sub-kinds, key)
and the joystick trampoline, dispatch with no prior registration performs no
handler invocation and is a silent no-op. -/
theorem C2_unregistered_dispatch_noop {H : Type} (s : glfw_state H) (w : WindowId)
    (k : window_event_kind) (key scanCode action modifiers jid jev : Int)
    (hw : s.window_callbacks w = none) (hk : s.key_callbacks w = none)
    (hj : s.joystick_callback = none) :
    detail.glfw_callbacks.window_trampoline k s w = none ∧
      detail.glfw_callbacks.glfw_key_callback s w key scanCode action modifiers = none ∧
      detail.glfw_callbacks.glfw_joystick_callback s jid jev = none := by
  refine ⟨?_, ?_, ?_⟩
  · simp [detail.glfw_callbacks.window_trampoline, hw]
  · simp [detail.glfw_callbacks.glfw_key_callback, hk]
  · simp [detail.glfw_callbacks.glfw_joystick_callback, hj]

/-- Witness for C2's amended theorem at the start state and window `0`. -/
theorem C2_unregistered_dispatch_noop_witness :
    detail.glfw_callbacks.window_trampoline .position (initial_state Nat) 0 = none ∧
      detail.glfw_callbacks.glfw_key_callback (initial_state Nat) 0 1 2 3 4 = none ∧
      detail.glfw_callbacks.glfw_joystick_callback (initial_state Nat) 0 1 = none :=
  C2_unregistered_dispatch_noop (initial_state Nat) 0 .position 1 2 3 4 0 1 rfl rfl rfl

/-- C2 (counterexample): with no prior registration, the monitor trampoline is
not a silent no-op — it invokes the empty global `std::function`, which throws
`std::bad_function_call`. -/
theorem C2_monitor_dispatch_faults :
    (initial_state Nat).monitor_callback = none ∧
      detail.glfw_callbacks.glfw_monitor_callback (initial_state Nat) 5 1
        = .error .bad_function_call :=
  ⟨rfl, rfl⟩

/-- C3: after registering handler `h` with mask `M` on window `w`, a dispatched
native event invokes `h` only when its sub-kind's bit is set in `M`; after
re-registering with a mask `M'` in which the bit of sub-kind `k₀` (previously
set in `M`) is absent, dispatch for `k₀` invokes no handler while dispatch for
every sub-kind whose bit is still set in `M'` continues to invoke `h`. -/
theorem C3_mask_gates_dispatch {H : Type} (s : glfw_state H) (w : WindowId)
    (h : H) (M M' : Nat) (k₀ : window_event_kind)
    (hOn : M &&& window_event_bit k₀ ≠ 0)
    (hOff : M' &&& window_event_bit k₀ = 0) :
    (∀ k, M &&& window_event_bit k = 0 →
        detail.glfw_callbacks.window_trampoline k
          (window_events.set_event_callback w h M s) w = none) ∧
      detail.glfw_callbacks.window_trampoline k₀
          (window_events.set_event_callback w h M s) w = some (h, w) ∧
      detail.glfw_callbacks.window_trampoline k₀
          (window_events.set_event_callback w h M'
            (window_events.set_event_callback w h M s)) w = none ∧
      (∀ k, M' &&& window_event_bit k ≠ 0 →
          detail.glfw_callbacks.window_trampoline k
            (window_events.set_event_callback w h M'
              (window_events.set_event_callback w h M s)) w = some (h, w)) := by
  refine ⟨fun k hk => ?_, ?_, ?_, fun k hk => ?_⟩
  · simp [window_trampoline_after_set, hk]
  · simp [window_trampoline_after_set, hOn]
  · simp [window_trampoline_after_set, hOff]
  · simp [window_trampoline_after_set, hk]

/-- Witness for C3: on window `0`, register with mask `POSITION|SIZE`, then
narrow to `POSITION`: the size sub-kind no longer dispatches while the position
sub-kind still invokes the handler. -/
theorem C3_mask_gates_dispatch_witness :
    detail.glfw_callbacks.window_trampoline .size
        (window_events.set_event_callback 0 (7 : Nat) POSITION_CHANGED
          (window_events.set_event_callback 0 (7 : Nat)
            (POSITION_CHANGED ||| SIZE_CHANGED) (initial_state Nat))) 0 = none ∧
      detail.glfw_callbacks.window_trampoline .position
        (window_events.set_event_callback 0 (7 : Nat) POSITION_CHANGED
          (window_events.set_event_callback 0 (7 : Nat)
            (POSITION_CHANGED ||| SIZE_CHANGED) (initial_state Nat))) 0
        = some (7, 0) :=
  have h := C3_mask_gates_dispatch (initial_state Nat) 0 (7 : Nat)
    (POSITION_CHANGED ||| SIZE_CHANGED) POSITION_CHANGED .size
    (by decide) (by decide)
  ⟨h.2.2.1, h.2.2.2 .position (by decide)⟩

/-- C4 (code bug): registering handler `7` for window `0` with
`mask = CLOSE_REQUESTED` stores the handler and mask, and the close trampoline
itself would invoke the handler, but the registration left the native close
slot uninstalled (`(CLOSE_REQUESTED & CLOSE_REQUESTED) == 1` is false), so a
native close event delivered for window `0` invokes no handler — the spec says
exactly one invocation.  The same event delivered for the never-registered
window `1` also invokes no handler (this half of the claim holds). -/
theorem C4_close_event_never_delivered :
    (window_events.set_event_callback 0 (7 : Nat) CLOSE_REQUESTED
        (initial_state Nat)).window_callbacks 0 = some ⟨some 7, CLOSE_REQUESTED⟩ ∧
      detail.glfw_callbacks.glfw_window_close_callback
        (window_events.set_event_callback 0 (7 : Nat) CLOSE_REQUESTED
          (initial_state Nat)) 0 = some (7, 0) ∧
      (window_events.set_event_callback 0 (7 : Nat) CLOSE_REQUESTED
        (initial_state Nat)).window_slots 0 .close = false ∧
      deliver_window_event .close
        (window_events.set_event_callback 0 (7 : Nat) CLOSE_REQUESTED
          (initial_state Nat)) 0 = none ∧
      deliver_window_event .close
        (window_events.set_event_callback 0 (7 : Nat) CLOSE_REQUESTED
          (initial_state Nat)) 1 = none := by
  decide

/-- C5: last write wins — registering `h1` then `h2` for key events on window
`w` makes every subsequent key dispatch invoke exactly `h2`, once, with the
full event value (`h1` is never invoked again); and the monitor sequence
"register `hm1`, register empty, register `hm2`" makes monitor dispatch invoke
exactly `hm2`, once. -/
theorem C5_last_write_wins {H : Type} (s : glfw_state H) (w : WindowId)
    (h1 h2 hm1 hm2 : H) (key scanCode action modifiers : Int)
    (m : MonitorId) (e : Int) :
    detail.glfw_callbacks.glfw_key_callback
        (input.set_key_callback w h2 (input.set_key_callback w h1 s))
        w key scanCode action modifiers
      = some (h2, ⟨w, key, scanCode, action, modifiers⟩) ∧
      detail.glfw_callbacks.glfw_monitor_callback
        (monitor_events.set_event_callback hm2
          (monitor_events.set_event_callback_null
            (monitor_events.set_event_callback hm1 s))) m e
      = .ok (hm2, m, e) := by
  constructor
  · simp [detail.glfw_callbacks.glfw_key_callback, input.set_key_callback]
  · simp [detail.glfw_callbacks.glfw_monitor_callback,
      monitor_events.set_event_callback, monitor_events.set_event_callback_null]

/-- C6: registering the empty handler after a non-empty one clears the stored
handler — every subsequent dispatch for that identity and kind invokes no
handler — and passes null to the native install point for the kind (key slot,
and all nine window-family slots, set back to `nullptr`). -/
theorem C6_empty_clears_and_uninstalls {H : Type} (s : glfw_state H)
    (w : WindowId) (h hK : H) (M : Nat) (key scanCode action modifiers : Int) :
    detail.glfw_callbacks.glfw_key_callback
        (input.set_key_callback_null w (input.set_key_callback w hK s))
        w key scanCode action modifiers = none ∧
      (input.set_key_callback_null w (input.set_key_callback w hK s)).key_slot w
        = false ∧
      (input.set_key_callback_null w (input.set_key_callback w hK s)).key_callbacks w
        = some none ∧
      (∀ k, detail.glfw_callbacks.window_trampoline k
          (window_events.set_event_callback_null w
            (window_events.set_event_callback w h M s)) w = none) ∧
      (∀ k, (window_events.set_event_callback_null w
          (window_events.set_event_callback w h M s)).window_slots w k = false) := by
  refine ⟨?_, ?_, ?_, fun k => ?_, fun k => ?_⟩ <;>
    simp [detail.glfw_callbacks.glfw_key_callback, input.set_key_callback,
      input.set_key_callback_null, detail.glfw_callbacks.window_trampoline,
      window_events.set_event_callback, window_events.set_event_callback_null]

/-- C7: registering the same handler value twice in a row leaves the registry
state identical to registering it once — for the masked window registration
and for the key registration — so each subsequent matching event invokes the
handler exactly once, never twice. -/
theorem C7_register_idempotent {H : Type} (s : glfw_state H) (w : WindowId)
    (h hK : H) (M : Nat) (key scanCode action modifiers : Int) :
    window_events.set_event_callback w h M (window_events.set_event_callback w h M s)
        = window_events.set_event_callback w h M s ∧
      input.set_key_callback w hK (input.set_key_callback w hK s)
        = input.set_key_callback w hK s ∧
      (∀ k, detail.glfw_callbacks.window_trampoline k
          (window_events.set_event_callback w h M
            (window_events.set_event_callback w h M s)) w
        = if M &&& window_event_bit k ≠ 0 then some (h, w) else none) ∧
      detail.glfw_callbacks.glfw_key_callback
        (input.set_key_callback w hK (input.set_key_callback w hK s))
        w key scanCode action modifiers
        = some (hK, ⟨w, key, scanCode, action, modifiers⟩) := by
  refine ⟨?_, ?_, fun k => ?_, ?_⟩
  · unfold window_events.set_event_callback
    congr 1 <;> funext x <;> by_cases hx : x = w <;> simp [hx]
  · unfold input.set_key_callback
    congr 1 <;> funext x <;> by_cases hx : x = w <;> simp [hx]
  · simp [window_trampoline_after_set]
  · simp [detail.glfw_callbacks.glfw_key_callback, input.set_key_callback]

/-- C8: once a map entry exists for an identity, no register or clear operation
(on any window) removes it; registering the empty handler keeps the slot
present, with the stored closure cleared (window family: callback `none`, mask
retained; key family: stored function empty). -/
theorem C8_entries_never_removed {H : Type} (s : glfw_state H) (w w' : WindowId)
    (h hK : H) (M : Nat)
    (hw : (s.window_callbacks w).isSome) (hk : (s.key_callbacks w).isSome) :
    ((window_events.set_event_callback w' h M s).window_callbacks w).isSome ∧
      ((window_events.set_event_callback_null w' s).window_callbacks w).isSome ∧
      ((input.set_key_callback w' hK s).key_callbacks w).isSome ∧
      ((input.set_key_callback_null w' s).key_callbacks w).isSome ∧
      (window_events.set_event_callback_null w' s).window_callbacks w'
        = some ⟨none, ((s.window_callbacks w').getD ⟨none, 0⟩).mask⟩ ∧
      (input.set_key_callback_null w' s).key_callbacks w' = some none := by
  refine ⟨?_, ?_, ?_, ?_, ?_, ?_⟩ <;>
    simp [window_events.set_event_callback, window_events.set_event_callback_null,
      input.set_key_callback, input.set_key_callback_null] <;>
    by_cases hx : w = w' <;> simp [hx, hw, hk]

/-- Witness for C8: window `0` carries a window entry and a key entry; a masked
registration and the two clear operations on window `1` keep them, and the
clears on window `1` leave present-but-cleared slots there. -/
theorem C8_entries_never_removed_witness :
    (((window_events.set_event_callback 1 (5 : Nat) 3
          (window_events.set_event_callback 0 (5 : Nat) 3
            (input.set_key_callback 0 (6 : Nat)
              (initial_state Nat)))).window_callbacks 0).isSome ∧
        ((window_events.set_event_callback_null 1
          (window_events.set_event_callback 0 (5 : Nat) 3
            (input.set_key_callback 0 (6 : Nat)
              (initial_state Nat)))).window_callbacks 0).isSome ∧
        ((input.set_key_callback 1 (6 : Nat)
          (window_events.set_event_callback 0 (5 : Nat) 3
            (input.set_key_callback 0 (6 : Nat)
              (initial_state Nat)))).key_callbacks 0).isSome ∧
        ((input.set_key_callback_null 1
          (window_events.set_event_callback 0 (5 : Nat) 3
            (input.set_key_callback 0 (6 : Nat)
              (initial_state Nat)))).key_callbacks 0).isSome ∧
        (window_events.set_event_callback_null 1
          (window_events.set_event_callback 0 (5 : Nat) 3
            (input.set_key_callback 0 (6 : Nat)
              (initial_state Nat)))).window_callbacks 1
          = some ⟨none, (((window_events.set_event_callback 0 (5 : Nat) 3
              (input.set_key_callback 0 (6 : Nat)
                (initial_state Nat))).window_callbacks 1).getD ⟨none, 0⟩).mask⟩ ∧
        (input.set_key_callback_null 1
          (window_events.set_event_callback 0 (5 : Nat) 3
            (input.set_key_callback 0 (6 : Nat)
              (initial_state Nat)))).key_callbacks 1 = some none) :=
  C8_entries_never_removed
    (window_events.set_event_callback 0 (5 : Nat) 3
      (input.set_key_callback 0 (6 : Nat) (initial_state Nat)))
    0 1 (5 : Nat) (6 : Nat) 3 (by decide) (by decide)

/-- C9: any register or clear operation performed for window `w` leaves the
registry entry (stored handler and mask), the key entry, and the native slots
of any distinct window `w'` completely unchanged. -/
theorem C9_ops_do_not_touch_other_windows {H : Type} (s : glfw_state H)
    (w w' : WindowId) (h hK : H) (M : Nat) (hne : w' ≠ w) :
    (window_events.set_event_callback w h M s).window_callbacks w'
        = s.window_callbacks w' ∧
      (window_events.set_event_callback w h M s).window_slots w'
        = s.window_slots w' ∧
      (window_events.set_event_callback_null w s).window_callbacks w'
        = s.window_callbacks w' ∧
      (window_events.set_event_callback_null w s).window_slots w'
        = s.window_slots w' ∧
      (input.set_key_callback w hK s).key_callbacks w' = s.key_callbacks w' ∧
      (input.set_key_callback w hK s).key_slot w' = s.key_slot w' ∧
      (input.set_key_callback_null w s).key_callbacks w' = s.key_callbacks w' ∧
      (input.set_key_callback_null w s).key_slot w' = s.key_slot w' := by
  refine ⟨?_, ?_, ?_, ?_, ?_, ?_, ?_, ?_⟩ <;>
    simp [window_events.set_event_callback, window_events.set_event_callback_null,
      input.set_key_callback, input.set_key_callback_null, hne]

/-- Witness for C9: operations on window `0` leave window `1`'s entries and
slots of the start state unchanged. -/
theorem C9_ops_do_not_touch_other_windows_witness :
    ((window_events.set_event_callback 0 (5 : Nat) 3
          (initial_state Nat)).window_callbacks 1
        = (initial_state Nat).window_callbacks 1 ∧
      (window_events.set_event_callback 0 (5 : Nat) 3
          (initial_state Nat)).window_slots 1
        = (initial_state Nat).window_slots 1 ∧
      (window_events.set_event_callback_null 0
          (initial_state Nat)).window_callbacks 1
        = (initial_state Nat).window_callbacks 1 ∧
      (window_events.set_event_callback_null 0
          (initial_state Nat)).window_slots 1
        = (initial_state Nat).window_slots 1 ∧
      (input.set_key_callback 0 (6 : Nat) (initial_state Nat)).key_callbacks 1
        = (initial_state Nat).key_callbacks 1 ∧
      (input.set_key_callback 0 (6 : Nat) (initial_state Nat)).key_slot 1
        = (initial_state Nat).key_slot 1 ∧
      (input.set_key_callback_null 0 (initial_state Nat)).key_callbacks 1
        = (initial_state Nat).key_callbacks 1 ∧
      (input.set_key_callback_null 0 (initial_state Nat)).key_slot 1
        = (initial_state Nat).key_slot 1) :=
  C9_ops_do_not_touch_other_windows (initial_state Nat) 0 1 (5 : Nat) (6 : Nat) 3
    (by decide)

/-- C1 (code bug): registering on window `0` with `mask = SIZE_CHANGED` stores
the mask (so the size bit is set and the dispatch gate would pass), yet the
native size slot is left uninstalled, because the install condition
`(mask & SIZE_CHANGED) == 1` evaluates `2 == 1`; the spec requires every
sub-kind whose bit is set in the mask to have its trampoline installed. -/
theorem C1_set_bit_not_installed :
    SIZE_CHANGED &&& SIZE_CHANGED ≠ 0 ∧
      (window_events.set_event_callback 0 (7 : Nat) SIZE_CHANGED
          (initial_state Nat)).window_callbacks 0 = some ⟨some 7, SIZE_CHANGED⟩ ∧
      (window_events.set_event_callback 0 (7 : Nat) SIZE_CHANGED
          (initial_state Nat)).window_slots 0 .size = false := by
  refine ⟨by decide, ?_, by decide⟩
  simp [window_events.set_event_callback, initial_state]

end GLFWhpp
